import Mathlib

/-!
Shallow embedding of the Fastrict rate-limit decision engine
(`src/fastrict/use_cases/rate_limit.py`) and its FastAPI middleware
(`src/fastrict/frameworks/middleware.py`).

Python exceptions are modelled with `Except`; the mutable backing store is
modelled by explicit state passing over an abstract state type `σ`, with the
repository's operations injected as functions (they are dependency-injected
in the source as well).  The `entities` and `key_extraction` modules and the
concrete repositories are not part of the given sources; the value objects
they define are modelled from the spec where needed, each marked in its doc
comment.
-/

namespace Fastrict

/-- Modelled from the spec: `RateLimitStrategyName` is an enum defined in the
missing `entities` module ("name: enum/string"); we model names as strings,
with the three default members as distinguished nonempty constants. -/
abbrev RateLimitStrategyName := String

/-- Modelled from the spec: the SHORT default-strategy name. -/
def RateLimitStrategyName.SHORT : RateLimitStrategyName := "short"

/-- Modelled from the spec: the MEDIUM default-strategy name. -/
def RateLimitStrategyName.MEDIUM : RateLimitStrategyName := "medium"

/-- Modelled from the spec: the LONG default-strategy name. -/
def RateLimitStrategyName.LONG : RateLimitStrategyName := "long"

/-- Modelled from the spec: `RateLimitStrategy` value object from the missing
`entities` module: a named `(limit, ttl)` pair. -/
structure RateLimitStrategy where
  name : RateLimitStrategyName
  limit : Nat
  ttl : Nat
deriving DecidableEq, Repr

/-- Modelled from the spec: key-extraction type tags from the missing
`entities` module. -/
inductive KeyExtractionType where
  | IP
  | HEADER
  | QUERY_PARAM
  | COOKIE
  | CUSTOM
deriving DecidableEq, Repr

/-- Modelled from the spec: `KeyExtractionStrategy` value object from the
missing `entities` module.  The engine under verification only constructs the
`IP` default and passes the object opaquely to the injected key-extraction
use case, so the `CUSTOM` extractor function is not modelled. -/
structure KeyExtractionStrategy where
  type : KeyExtractionType
  field : Option String
  default_value : Option String
deriving DecidableEq, Repr

/-- Abstract request view: the engine passes the request opaquely to the
injected key extractor and to the bypass predicate; the middleware reads only
the URL path.  (`request.scope` endpoint lookup is modelled on the middleware
structure itself, see `RateLimitMiddleware.get_route_config`.) -/
structure Request where
  path : String

/-- Detail payload of the HTTP 429 exception raised by `check_rate_limit`
(the dict built at `rate_limit.py:141-146`). -/
structure ExceededDetail where
  message : String
  retry_after : Option Nat
  limit : Nat
  window : Nat
deriving DecidableEq, Repr

/-- Python exceptions reachable from the embedded code:
`RateLimitHTTPException` (the 429 exceeded signal, `rate_limit.py:18`),
`RateLimitException(message, status_code)` (imported from the missing
`key_extraction` module), and arbitrary other exceptions raised by injected
collaborators (store, extractor, bypass predicate). -/
inductive PyExc where
  | rateLimitHTTP (status_code : Nat) (detail : ExceededDetail)
  | rateLimitExc (message : String) (status_code : Nat)
  | other (message : String)
deriving DecidableEq, Repr

/-- Modelled after the missing `entities` module's `RateLimitResult`
constructor calls in `rate_limit.py` (fields as passed at call sites;
`retry_after` defaults to `none` when omitted, per the spec's
"retryAfter: optional seconds"). -/
structure RateLimitResult where
  allowed : Bool
  key : String
  current_count : Nat
  limit : Nat
  ttl : Nat
  retry_after : Option Nat
  strategy_name : RateLimitStrategyName
deriving DecidableEq, Repr

/-- The injected repository interface (`IRateLimitRepository`): its two
operations, over an abstract store-state type `σ`.  `increment_counter` may
mutate the store and may raise; `get_current_count` is read-only and may
raise. -/
structure Repo (σ : Type) where
  increment_counter : String → Nat → σ → Except PyExc Nat × σ
  get_current_count : String → σ → Except PyExc Nat

/-- Per-call configuration (`RateLimitConfig` from the missing `entities`
module, modelled from the spec and the engine's field accesses).  The bypass
predicate may raise, hence returns `Except`.  `strategy_name` holds a
`RateLimitStrategyName` enum member (always truthy in Python). -/
structure RateLimitConfig where
  strategy : Option RateLimitStrategy
  strategy_name : Option RateLimitStrategyName
  key_extraction : Option KeyExtractionStrategy
  bypass_function : Option (Request → Except PyExc Bool)
  custom_error_message : Option String
  enabled : Bool

/-- Python-dict lookup for the `_strategy_map` comprehension
`{strategy.name: strategy for strategy in strategies}`: on duplicate names
the later entry wins. -/
def dictGet : List (RateLimitStrategyName × RateLimitStrategy) →
    RateLimitStrategyName → Option RateLimitStrategy
  | [], _ => none
  | (k, v) :: rest, n =>
    match dictGet rest n with
    | some v' => some v'
    | none => if k = n then some v else none

/-- The `_strategy_map` dict comprehension over a strategy list
(`rate_limit.py:48-50`, `rate_limit.py:258`). -/
def buildStrategyMap (strategies : List RateLimitStrategy) :
    List (RateLimitStrategyName × RateLimitStrategy) :=
  strategies.map (fun s => (s.name, s))

/-- State of a `RateLimitUseCase` instance: the injected repository and key
extractor, plus the strategy list and derived name→strategy map.  The logger
is omitted (logging has no observable effect in the embedding). -/
structure RateLimitUseCase (σ : Type) where
  rate_limit_repository : Repo σ
  extract_key : Request → KeyExtractionStrategy → Except PyExc String
  default_strategies : List RateLimitStrategy
  strategy_map : List (RateLimitStrategyName × RateLimitStrategy)

/-- `RateLimitUseCase._get_default_strategies` (`rate_limit.py:52-70`). -/
def _get_default_strategies : List RateLimitStrategy :=
  [ ⟨RateLimitStrategyName.SHORT, 3, 60⟩,
    ⟨RateLimitStrategyName.MEDIUM, 20, 600⟩,
    ⟨RateLimitStrategyName.LONG, 100, 3600⟩ ]

/-- `RateLimitUseCase.__init__` (`rate_limit.py:35-50`): Python's
`default_strategies or self._get_default_strategies()` treats both `None`
and an empty list as absent. -/
def mkRateLimitUseCase {σ : Type} (repo : Repo σ)
    (extract : Request → KeyExtractionStrategy → Except PyExc String)
    (default_strategies : Option (List RateLimitStrategy)) :
    RateLimitUseCase σ :=
  let strategies :=
    match default_strategies with
    | none => _get_default_strategies
    | some [] => _get_default_strategies
    | some l => l
  ⟨repo, extract, strategies, buildStrategyMap strategies⟩

/-- `RateLimitUseCase._determine_strategy` (`rate_limit.py:158-183`). -/
def _determine_strategy {σ : Type} (uc : RateLimitUseCase σ)
    (config : Option RateLimitConfig)
    (default_strategy_name : RateLimitStrategyName) :
    Except PyExc RateLimitStrategy :=
  let viaDefault : Except PyExc RateLimitStrategy :=
    match dictGet uc.strategy_map default_strategy_name with
    | some strategy => .ok strategy
    | none =>
      .error (.rateLimitExc
        ("Default strategy not found: " ++ default_strategy_name) 500)
  match config with
  | some c =>
    match c.strategy with
    | some strategy => .ok strategy
    | none =>
      match c.strategy_name with
      | some n =>
        match dictGet uc.strategy_map n with
        | some strategy => .ok strategy
        | none => .error (.rateLimitExc ("Unknown strategy name: " ++ n) 500)
      | none => viaDefault
  | none => viaDefault

/-- `RateLimitUseCase._determine_key_strategy` (`rate_limit.py:185-193`). -/
def _determine_key_strategy (config : Option RateLimitConfig) :
    KeyExtractionStrategy :=
  match config with
  | some c =>
    match c.key_extraction with
    | some ks => ks
    | none => ⟨KeyExtractionType.IP, none, none⟩
  | none => ⟨KeyExtractionType.IP, none, none⟩

/-- Rendering of an `Option Nat` inside the Python f-string template (an
`int` or `None`). -/
def showOptNat : Option Nat → String
  | some n => toString n
  | none => "None"

/-- `RateLimitUseCase._get_error_message` (`rate_limit.py:195-205`).
Python's `if config and config.custom_error_message:` treats an empty
custom message as absent. -/
def _get_error_message (config : Option RateLimitConfig)
    (result : RateLimitResult) : String :=
  match config with
  | some c =>
    match c.custom_error_message with
    | some m =>
      if m = "" then
        "Rate limit exceeded. Maximum " ++ toString result.limit ++
        " requests per " ++ toString result.ttl ++
        " seconds. Please try again in " ++ showOptNat result.retry_after ++
        " seconds."
      else m
    | none =>
      "Rate limit exceeded. Maximum " ++ toString result.limit ++
      " requests per " ++ toString result.ttl ++
      " seconds. Please try again in " ++ showOptNat result.retry_after ++
      " seconds."
  | none =>
    "Rate limit exceeded. Maximum " ++ toString result.limit ++
    " requests per " ++ toString result.ttl ++
    " seconds. Please try again in " ++ showOptNat result.retry_after ++
    " seconds."

/-- The bypass evaluation step of `check_rate_limit`
(`rate_limit.py:103-116`): bypass applies only when a config with a bypass
function is present and the function returns true; an exception from the
function is caught and logged, i.e. treated as not bypassed. -/
def _bypass_result (config : Option RateLimitConfig) (request : Request) :
    Bool :=
  match config with
  | none => false
  | some c =>
    match c.bypass_function with
    | none => false
    | some f =>
      match f request with
      | .ok b => b
      | .error _ => false

/-- Body of the `try` block of `RateLimitUseCase.check_rate_limit`
(`rate_limit.py:91-150`): strategy resolution, key extraction, bypass,
store increment, inclusive comparison, and the 429 exceeded signal. -/
def check_rate_limit_inner {σ : Type} (uc : RateLimitUseCase σ)
    (request : Request) (config : Option RateLimitConfig)
    (default_strategy_name : RateLimitStrategyName) (s : σ) :
    Except PyExc RateLimitResult × σ :=
  match _determine_strategy uc config default_strategy_name with
  | .error e => (.error e, s)
  | .ok strategy =>
    match uc.extract_key request (_determine_key_strategy config) with
    | .error e => (.error e, s)
    | .ok rate_limit_key =>
      if _bypass_result config request then
        (.ok ⟨true, rate_limit_key, 0, strategy.limit, strategy.ttl,
              none, strategy.name⟩, s)
      else
        match uc.rate_limit_repository.increment_counter rate_limit_key
            strategy.ttl s with
        | (.error e, s') => (.error e, s')
        | (.ok current_count, s') =>
          let allowed : Bool := decide (current_count ≤ strategy.limit)
          let retry_after : Option Nat :=
            if allowed then none else some strategy.ttl
          let result : RateLimitResult :=
            ⟨allowed, rate_limit_key, current_count, strategy.limit,
             strategy.ttl, retry_after, strategy.name⟩
          if allowed then (.ok result, s')
          else
            (.error (.rateLimitHTTP 429
              ⟨_get_error_message config result, retry_after,
               strategy.limit, strategy.ttl⟩), s')

/-- `RateLimitUseCase.check_rate_limit` (`rate_limit.py:72-156`): the outer
`except RateLimitHTTPException: raise` re-raises the exceeded signal
unmodified, while `except Exception` converts every other failure into
`RateLimitException("Rate limit check failed", 500)`. -/
def check_rate_limit {σ : Type} (uc : RateLimitUseCase σ) (request : Request)
    (config : Option RateLimitConfig)
    (default_strategy_name : RateLimitStrategyName) (s : σ) :
    Except PyExc RateLimitResult × σ :=
  match check_rate_limit_inner uc request config default_strategy_name s with
  | (.ok r, s') => (.ok r, s')
  | (.error e, s') =>
    match e with
    | .rateLimitHTTP sc d => (.error (.rateLimitHTTP sc d), s')
    | _ => (.error (.rateLimitExc "Rate limit check failed" 500), s')

/-- Body of the `try` block of `RateLimitUseCase.get_current_usage`
(`rate_limit.py:223-245`): same resolution and extraction, read-only count,
exclusive comparison. -/
def get_current_usage_inner {σ : Type} (uc : RateLimitUseCase σ)
    (request : Request) (config : Option RateLimitConfig)
    (default_strategy_name : RateLimitStrategyName) (s : σ) :
    Except PyExc RateLimitResult :=
  match _determine_strategy uc config default_strategy_name with
  | .error e => .error e
  | .ok strategy =>
    match uc.extract_key request (_determine_key_strategy config) with
    | .error e => .error e
    | .ok rate_limit_key =>
      match uc.rate_limit_repository.get_current_count rate_limit_key s with
      | .error e => .error e
      | .ok current_count =>
        let allowed : Bool := decide (current_count < strategy.limit)
        .ok ⟨allowed, rate_limit_key, current_count, strategy.limit,
             strategy.ttl, if allowed then none else some strategy.ttl,
             strategy.name⟩

/-- `RateLimitUseCase.get_current_usage` (`rate_limit.py:207-249`): the
`except Exception` clause converts every failure into
`RateLimitException("Usage check failed", 500)`. -/
def get_current_usage {σ : Type} (uc : RateLimitUseCase σ) (request : Request)
    (config : Option RateLimitConfig)
    (default_strategy_name : RateLimitStrategyName) (s : σ) :
    Except PyExc RateLimitResult :=
  match get_current_usage_inner uc request config default_strategy_name s with
  | .ok r => .ok r
  | .error _ => .error (.rateLimitExc "Usage check failed" 500)

/-- `RateLimitUseCase.update_strategies` (`rate_limit.py:251-261`): replaces
the strategy list and rebuilds the whole name→strategy map from it. -/
def update_strategies {σ : Type} (uc : RateLimitUseCase σ)
    (strategies : List RateLimitStrategy) : RateLimitUseCase σ :=
  { uc with
    default_strategies := strategies
    strategy_map := buildStrategyMap strategies }

/-- Python default value of the `default_strategy_name` parameter of
`check_rate_limit` (`rate_limit.py:76`): a call without an explicit default
strategy name uses `RateLimitStrategyName.MEDIUM`. -/
def check_rate_limit_defaultName {σ : Type} (uc : RateLimitUseCase σ)
    (request : Request) (config : Option RateLimitConfig) (s : σ) :
    Except PyExc RateLimitResult × σ :=
  check_rate_limit uc request config RateLimitStrategyName.MEDIUM s

/-- Python default value of the `default_strategy_name` parameter of
`get_current_usage` (`rate_limit.py:211`). -/
def get_current_usage_defaultName {σ : Type} (uc : RateLimitUseCase σ)
    (request : Request) (config : Option RateLimitConfig) (s : σ) :
    Except PyExc RateLimitResult :=
  get_current_usage uc request config RateLimitStrategyName.MEDIUM s

/-- Observable outcome of `RateLimitMiddleware.dispatch`: either the request
was forwarded to `call_next` (with the rate-limit headers of a successful
check attached, when there was one), or a JSON rejection was returned from
the raised `RateLimitHTTPException`. -/
inductive DispatchResult where
  | forwarded (rate_limit_headers : Option RateLimitResult)
  | rejected (status_code : Nat) (detail : ExceededDetail)
deriving DecidableEq, Repr

/-- State of a `RateLimitMiddleware` instance (`middleware.py:21-49`).
`get_route_config` models the composition of `request.scope.get("endpoint")`
with `get_rate_limit_config` from the missing `decorator` module (modelled
from the spec: it reads the per-route `RateLimitConfig` the decorator
attached to the endpoint, if any). -/
structure RateLimitMiddleware (σ : Type) where
  rate_limit_use_case : RateLimitUseCase σ
  default_strategy_name : RateLimitStrategyName
  excluded_paths : List String
  enabled : Bool
  get_route_config : Request → Option RateLimitConfig

/-- Python's `path.startswith(p)`: `p` is a prefix of `path`'s character
sequence. -/
def strStartsWith (path p : String) : Bool :=
  p.data.isPrefixOf path.data

/-- `RateLimitMiddleware._is_path_excluded` (`middleware.py:104-116`):
`path.startswith(excluded_path)` over the excluded-paths list. -/
def _is_path_excluded (excluded_paths : List String) (path : String) : Bool :=
  excluded_paths.any (fun excluded_path => strStartsWith path excluded_path)

/-- `RateLimitMiddleware.dispatch` (`middleware.py:51-102`): skip when
disabled, skip excluded paths, skip when the route config disables limiting;
otherwise run the check — a success forwards with headers, the 429 signal
becomes a JSON rejection, and any other exception is caught, logged and the
request forwarded anyway. -/
def dispatch {σ : Type} (mw : RateLimitMiddleware σ) (request : Request)
    (s : σ) : DispatchResult × σ :=
  if mw.enabled = false then (.forwarded none, s)
  else if _is_path_excluded mw.excluded_paths request.path then
    (.forwarded none, s)
  else
    let route_config := mw.get_route_config request
    if (match route_config with
        | some c => c.enabled = false
        | none => false : Bool) then (.forwarded none, s)
    else
      match check_rate_limit mw.rate_limit_use_case request route_config
          mw.default_strategy_name s with
      | (.ok result, s') => (.forwarded (some result), s')
      | (.error (.rateLimitHTTP sc d), s') => (.rejected sc d, s')
      | (.error _, s') => (.forwarded none, s')

/-- Association-list lookup for the canonical counter-store model. -/
def counterLookup : List (String × Nat) → String → Option Nat
  | [], _ => none
  | (k, v) :: rest, key => if k = key then some v else counterLookup rest key

/-- Association-list update for the canonical counter-store model. -/
def counterSet : List (String × Nat) → String → Nat → List (String × Nat)
  | [], key, v => [(key, v)]
  | (k, w) :: rest, key, v =>
    if k = key then (key, v) :: rest else (k, w) :: counterSet rest key v

/-- Modelled from the spec: a canonical `CounterStore` satisfying §4.3's
increment contract (the concrete Redis/memory repositories are not in the
given sources).  A missing key is created with value 1, an existing key is
incremented, and the post-increment value is returned; expiry is a real-time
notion and is not modelled, so the `ttl` argument is unused. -/
def modelRepo : Repo (List (String × Nat)) where
  increment_counter := fun key _ttl s =>
    match counterLookup s key with
    | none => (.ok 1, counterSet s key 1)
    | some n => (.ok (n + 1), counterSet s key (n + 1))
  get_current_count := fun key s => .ok ((counterLookup s key).getD 0)

/-- A key extractor that deterministically yields the fixed key `k`
(standing for one fixed caller identity hitting the limiter repeatedly). -/
def constKeyExtractor (k : String) :
    Request → KeyExtractionStrategy → Except PyExc String :=
  fun _ _ => .ok k

/-- An engine over the canonical store whose extractor always yields `k`,
constructed without a caller-supplied strategy list. -/
def seqUseCase (k : String) : RateLimitUseCase (List (String × Nat)) :=
  mkRateLimitUseCase modelRepo (constKeyExtractor k) none

/-- A config that supplies a full strategy object and nothing else. -/
def strategyOnlyConfig (st : RateLimitStrategy) : RateLimitConfig :=
  ⟨some st, none, none, none, none, true⟩

/-- Store state after `n` successive calls to `check_rate_limit` with fixed
arguments, starting from `s`. -/
def runChecks {σ : Type} (uc : RateLimitUseCase σ) (request : Request)
    (config : Option RateLimitConfig)
    (default_strategy_name : RateLimitStrategyName) :
    Nat → σ → σ
  | 0, s => s
  | n + 1, s =>
    (check_rate_limit uc request config default_strategy_name
      (runChecks uc request config default_strategy_name n s)).2

/-- A middleware instance excluding the path prefix "/health". -/
def mwHealth : RateLimitMiddleware (List (String × Nat)) :=
  ⟨seqUseCase "k", RateLimitStrategyName.MEDIUM, ["/health"], true,
   fun _ => none⟩

/-- A repository whose operations always raise (an unreachable store). -/
def failRepo : Repo (List (String × Nat)) where
  increment_counter := fun _ _ s => (.error (.other "redis unreachable"), s)
  get_current_count := fun _ _ => .error (.other "redis unreachable")

/-- An engine whose backing store is unreachable. -/
def storeDownUseCase : RateLimitUseCase (List (String × Nat)) :=
  mkRateLimitUseCase failRepo (constKeyExtractor "k") none

/-- A config whose bypass predicate always raises. -/
def raisingBypassConfig : RateLimitConfig :=
  ⟨some ⟨"s", 2, 60⟩, none, none,
   some (fun _ => .error (.other "bypass blew up")), none, true⟩

/-- A config whose bypass predicate always returns true. -/
def bypassTrueConfig : RateLimitConfig :=
  ⟨some ⟨"s", 2, 60⟩, none, none, some (fun _ => .ok true), none, true⟩

/-- A middleware over the unreachable-store engine, no exclusions. -/
def mwStoreDown : RateLimitMiddleware (List (String × Nat)) :=
  ⟨storeDownUseCase, RateLimitStrategyName.MEDIUM, [], true, fun _ => none⟩

/-- A middleware whose route config carries a strategy of 1 request per
60 seconds. -/
def mwStrict : RateLimitMiddleware (List (String × Nat)) :=
  ⟨seqUseCase "k", RateLimitStrategyName.MEDIUM, [], true,
   fun _ => some (strategyOnlyConfig ⟨"one-per-min", 1, 60⟩)⟩

/-- Lookup in a strategy map built from a list not containing the name
fails. -/
theorem dictGet_not_mem (l : List RateLimitStrategy)
    (n : RateLimitStrategyName) (hn : n ∉ l.map RateLimitStrategy.name) :
    dictGet (buildStrategyMap l) n = none := by
  induction l with
  | nil => rfl
  | cons s t ih =>
    simp only [List.map_cons, List.mem_cons, not_or] at hn
    have h1 := ih hn.2
    show dictGet ((s.name, s) :: buildStrategyMap t) n = none
    simp [dictGet, h1, Ne.symm hn.1]

/-- C7: strategy resolution is first-match-wins: a full strategy object on
the config is returned without consulting the registry; otherwise a present
`strategy_name` is looked up in the registry, failing with the
unknown-strategy `RateLimitException` when absent; otherwise the default
name is looked up, failing with the unknown-strategy `RateLimitException`
when absent. -/
theorem determine_strategy_resolution_order {σ : Type}
    (uc : RateLimitUseCase σ) (dn : RateLimitStrategyName) :
    (∀ cfg st, cfg.strategy = some st →
      _determine_strategy uc (some cfg) dn = .ok st)
    ∧ (∀ cfg n, cfg.strategy = none → cfg.strategy_name = some n →
      _determine_strategy uc (some cfg) dn =
        (match dictGet uc.strategy_map n with
         | some st => .ok st
         | none =>
           .error (.rateLimitExc ("Unknown strategy name: " ++ n) 500)))
    ∧ (∀ cfg, cfg.strategy = none → cfg.strategy_name = none →
      _determine_strategy uc (some cfg) dn =
        (match dictGet uc.strategy_map dn with
         | some st => .ok st
         | none =>
           .error
             (.rateLimitExc ("Default strategy not found: " ++ dn) 500)))
    ∧ (_determine_strategy uc none dn =
        (match dictGet uc.strategy_map dn with
         | some st => .ok st
         | none =>
           .error
             (.rateLimitExc ("Default strategy not found: " ++ dn) 500))) := by
  refine ⟨?_, ?_, ?_, ?_⟩
  · intro cfg st h
    simp [_determine_strategy, h]
  · intro cfg n h1 h2
    simp [_determine_strategy, h1, h2]
  · intro cfg h1 h2
    simp [_determine_strategy, h1, h2]
  · simp [_determine_strategy]

/-- Witness for C7: a concrete config carrying a full strategy object is
resolved to that object without a registry lookup. -/
theorem determine_strategy_resolution_order_witness :
    _determine_strategy (seqUseCase "k")
      (some (strategyOnlyConfig ⟨"custom", 5, 30⟩))
      RateLimitStrategyName.MEDIUM = .ok ⟨"custom", 5, 30⟩ :=
  (determine_strategy_resolution_order (seqUseCase "k")
      RateLimitStrategyName.MEDIUM).1
    (strategyOnlyConfig ⟨"custom", 5, 30⟩) ⟨"custom", 5, 30⟩ rfl

/-- C8: `update_strategies` rebuilds the whole name→strategy map from the
supplied list alone, so resolution by a name absent from that list — as a
config `strategy_name` or as the default name — fails with the
unknown-strategy `RateLimitException`, never returning a strategy from the
previous map. -/
theorem update_strategies_replaces_whole_map {σ : Type}
    (uc : RateLimitUseCase σ) (l : List RateLimitStrategy)
    (dn n : RateLimitStrategyName) (hn : n ∉ l.map RateLimitStrategy.name) :
    ((update_strategies uc l).strategy_map = buildStrategyMap l)
    ∧ (∀ cfg, cfg.strategy = none → cfg.strategy_name = some n →
        _determine_strategy (update_strategies uc l) (some cfg) dn =
          .error (.rateLimitExc ("Unknown strategy name: " ++ n) 500))
    ∧ (_determine_strategy (update_strategies uc l) none n =
        .error (.rateLimitExc ("Default strategy not found: " ++ n) 500)) := by
  have h0 : dictGet (buildStrategyMap l) n = none := dictGet_not_mem l n hn
  refine ⟨rfl, ?_, ?_⟩
  · intro cfg h1 h2
    simp [_determine_strategy, update_strategies, h1, h2, h0]
  · simp [_determine_strategy, update_strategies, h0]

/-- Witness for C8: after replacing the strategies with the empty list, the
engine's former default name MEDIUM no longer resolves. -/
theorem update_strategies_replaces_whole_map_witness :
    _determine_strategy (update_strategies (seqUseCase "k") []) none
        RateLimitStrategyName.MEDIUM =
      .error (.rateLimitExc
        ("Default strategy not found: " ++ RateLimitStrategyName.MEDIUM)
        500) :=
  (update_strategies_replaces_whole_map (seqUseCase "k") []
    RateLimitStrategyName.MEDIUM RateLimitStrategyName.MEDIUM
    (by decide)).2.2

/-- C9: path exclusion is prefix matching: `_is_path_excluded` is true
exactly when some configured excluded path is a prefix of the request path,
and in that case `dispatch` forwards the request, leaving the store state
untouched (the rate-limit check is never invoked). -/
theorem excluded_path_prefix_skips_check {σ : Type}
    (mw : RateLimitMiddleware σ) (request : Request) (s : σ)
    (h : ∃ p ∈ mw.excluded_paths, strStartsWith request.path p = true) :
    _is_path_excluded mw.excluded_paths request.path = true
    ∧ dispatch mw request s = (.forwarded none, s) := by
  have hex : _is_path_excluded mw.excluded_paths request.path = true := by
    obtain ⟨p, hp, hst⟩ := h
    exact List.any_eq_true.mpr ⟨p, hp, hst⟩
  refine ⟨hex, ?_⟩
  unfold dispatch
  cases he : mw.enabled with
  | false => simp [he]
  | true => simp [he, hex]

/-- Witness for C9: excluding "/health" also exempts "/healthcheck": the
middleware forwards it and the store is untouched. -/
theorem excluded_path_prefix_skips_check_witness :
    _is_path_excluded mwHealth.excluded_paths "/healthcheck" = true
    ∧ dispatch mwHealth ⟨"/healthcheck"⟩ [] =
        (.forwarded none, []) := by
  have h := excluded_path_prefix_skips_check mwHealth ⟨"/healthcheck"⟩ []
    ⟨"/health", by decide, by decide⟩
  exact ⟨h.1, h.2⟩

/-- C10: an engine constructed without a caller-supplied strategy list holds
exactly the three defaults — SHORT (3 per 60 s), MEDIUM (20 per 600 s),
LONG (100 per 3600 s) — and the Python default parameter of both
`check_rate_limit` and `get_current_usage` makes MEDIUM the default
strategy name when none is passed. -/
theorem default_engine_three_strategies {σ : Type} (repo : Repo σ)
    (extract : Request → KeyExtractionStrategy → Except PyExc String)
    (uc : RateLimitUseCase σ) (request : Request)
    (config : Option RateLimitConfig) (s : σ) :
    ((mkRateLimitUseCase repo extract none).default_strategies =
      [⟨RateLimitStrategyName.SHORT, 3, 60⟩,
       ⟨RateLimitStrategyName.MEDIUM, 20, 600⟩,
       ⟨RateLimitStrategyName.LONG, 100, 3600⟩])
    ∧ ((mkRateLimitUseCase repo extract none).strategy_map =
       buildStrategyMap _get_default_strategies)
    ∧ (check_rate_limit_defaultName uc request config s =
       check_rate_limit uc request config RateLimitStrategyName.MEDIUM s)
    ∧ (get_current_usage_defaultName uc request config s =
       get_current_usage uc request config RateLimitStrategyName.MEDIUM s) :=
  ⟨rfl, rfl, rfl, rfl⟩

/-- Taking the second component of an if whose branches share it. -/
theorem snd_ite_pair {α β : Type} (c : Prop) [Decidable c] (x y : α)
    (s : β) : (if c then (x, s) else (y, s)).2 = s := by
  split <;> rfl

/-- The exception-wrapping wrapper of `check_rate_limit` never changes the
store state produced by the body. -/
theorem check_rate_limit_snd {σ : Type} (uc : RateLimitUseCase σ)
    (request : Request) (cfg : Option RateLimitConfig)
    (dn : RateLimitStrategyName) (s : σ) :
    (check_rate_limit uc request cfg dn s).2 =
      (check_rate_limit_inner uc request cfg dn s).2 := by
  unfold check_rate_limit
  rcases h : check_rate_limit_inner uc request cfg dn s with ⟨er, s'⟩
  cases er with
  | ok r => rfl
  | error e => cases e <;> rfl

/-- Evaluation of `check_rate_limit` on the allowed side of the inclusive
comparison: the post-increment count is within the limit. -/
theorem check_eq_of_allowed {σ : Type} (uc : RateLimitUseCase σ)
    (request : Request) (cfg : Option RateLimitConfig)
    (dn : RateLimitStrategyName) (s s' : σ) (strat : RateLimitStrategy)
    (key : String) (c : Nat)
    (hstrat : _determine_strategy uc cfg dn = .ok strat)
    (hkey : uc.extract_key request (_determine_key_strategy cfg) = .ok key)
    (hbyp : _bypass_result cfg request = false)
    (hinc : uc.rate_limit_repository.increment_counter key strat.ttl s =
      (.ok c, s'))
    (hc : c ≤ strat.limit) :
    check_rate_limit uc request cfg dn s =
      (.ok ⟨true, key, c, strat.limit, strat.ttl, none, strat.name⟩, s') := by
  have hd : decide (c ≤ strat.limit) = true := decide_eq_true hc
  simp [check_rate_limit, check_rate_limit_inner, hstrat, hkey, hbyp, hinc,
        hd, hc]

/-- Evaluation of `check_rate_limit` on the denied side of the inclusive
comparison: the post-increment count exceeds the limit, and the raised 429
signal carries `retry_after = ttl`. -/
theorem check_eq_of_denied {σ : Type} (uc : RateLimitUseCase σ)
    (request : Request) (cfg : Option RateLimitConfig)
    (dn : RateLimitStrategyName) (s s' : σ) (strat : RateLimitStrategy)
    (key : String) (c : Nat)
    (hstrat : _determine_strategy uc cfg dn = .ok strat)
    (hkey : uc.extract_key request (_determine_key_strategy cfg) = .ok key)
    (hbyp : _bypass_result cfg request = false)
    (hinc : uc.rate_limit_repository.increment_counter key strat.ttl s =
      (.ok c, s'))
    (hc : ¬ c ≤ strat.limit) :
    check_rate_limit uc request cfg dn s =
      (.error (.rateLimitHTTP 429
        ⟨_get_error_message cfg
          ⟨false, key, c, strat.limit, strat.ttl, some strat.ttl,
           strat.name⟩,
         some strat.ttl, strat.limit, strat.ttl⟩), s') := by
  have hd : decide (c ≤ strat.limit) = false := decide_eq_false hc
  simp [check_rate_limit, check_rate_limit_inner, hstrat, hkey, hbyp, hinc,
        hd, hc]

/-- Evaluation of `get_current_usage` when resolution, extraction and the
store read all succeed: exclusive comparison against the limit. -/
theorem usage_eq {σ : Type} (uc : RateLimitUseCase σ) (request : Request)
    (cfg : Option RateLimitConfig) (dn : RateLimitStrategyName) (s : σ)
    (strat : RateLimitStrategy) (key : String) (c : Nat)
    (hstrat : _determine_strategy uc cfg dn = .ok strat)
    (hkey : uc.extract_key request (_determine_key_strategy cfg) = .ok key)
    (hcnt : uc.rate_limit_repository.get_current_count key s = .ok c) :
    get_current_usage uc request cfg dn s =
      .ok ⟨decide (c < strat.limit), key, c, strat.limit, strat.ttl,
           if c < strat.limit then none else some strat.ttl,
           strat.name⟩ := by
  simp [get_current_usage, get_current_usage_inner, hstrat, hkey, hcnt]

/-- Store state of the fixed-caller engine after `n` checks from empty:
the key carries exactly `n` (each call increments, allowed or not). -/
theorem runChecks_state (L T : Nat) (k nm : String) (rq : Request)
    (dn : RateLimitStrategyName) (n : Nat) :
    runChecks (seqUseCase k) rq (some (strategyOnlyConfig ⟨nm, L, T⟩)) dn n []
      = if n = 0 then [] else [(k, n)] := by
  induction n with
  | zero => rfl
  | succ m ih =>
    show (check_rate_limit _ _ _ _
      (runChecks (seqUseCase k) rq (some (strategyOnlyConfig ⟨nm, L, T⟩))
        dn m [])).2 = _
    rw [check_rate_limit_snd, ih]
    cases m with
    | zero =>
      simp [check_rate_limit_inner, _determine_strategy,
            _determine_key_strategy, _bypass_result, strategyOnlyConfig,
            seqUseCase, mkRateLimitUseCase, constKeyExtractor, modelRepo,
            counterLookup, counterSet, snd_ite_pair]
    | succ p =>
      simp [check_rate_limit_inner, _determine_strategy,
            _determine_key_strategy, _bypass_result, strategyOnlyConfig,
            seqUseCase, mkRateLimitUseCase, constKeyExtractor, modelRepo,
            counterLookup, counterSet, snd_ite_pair]

/-- Call `n + 1` of the fixed-caller sequence (numbering from 1), when
`n + 1 ≤ L`: allowed, with the post-increment count `n + 1`. -/
theorem seq_check_succeeds (L T : Nat) (k nm : String) (rq : Request)
    (dn : RateLimitStrategyName) (n : Nat) (hn : n < L) :
    check_rate_limit (seqUseCase k) rq
      (some (strategyOnlyConfig ⟨nm, L, T⟩)) dn
      (runChecks (seqUseCase k) rq (some (strategyOnlyConfig ⟨nm, L, T⟩))
        dn n []) =
    (.ok ⟨true, k, n + 1, L, T, none, nm⟩, [(k, n + 1)]) := by
  rw [runChecks_state]
  have hc : n + 1 ≤ L := hn
  cases n with
  | zero =>
    exact check_eq_of_allowed _ _ _ _ _ _ ⟨nm, L, T⟩ k 1 rfl rfl rfl rfl hc
  | succ p =>
    have hinc : (seqUseCase k).rate_limit_repository.increment_counter k T
        (if p + 1 = 0 then [] else [(k, p + 1)]) =
        (.ok (p + 2), [(k, p + 2)]) := by
      simp [seqUseCase, mkRateLimitUseCase, modelRepo, counterLookup,
            counterSet]
    exact check_eq_of_allowed _ _ _ _ _ _ ⟨nm, L, T⟩ k (p + 2) rfl rfl rfl
      hinc hc

/-- Call `L + 1` of the fixed-caller sequence: denied with the 429 signal
carrying `retry_after = T`. -/
theorem seq_check_denied (L T : Nat) (k nm : String) (rq : Request)
    (dn : RateLimitStrategyName) :
    check_rate_limit (seqUseCase k) rq
      (some (strategyOnlyConfig ⟨nm, L, T⟩)) dn
      (runChecks (seqUseCase k) rq (some (strategyOnlyConfig ⟨nm, L, T⟩))
        dn L []) =
    (.error (.rateLimitHTTP 429
      ⟨_get_error_message (some (strategyOnlyConfig ⟨nm, L, T⟩))
        ⟨false, k, L + 1, L, T, some T, nm⟩,
       some T, L, T⟩), [(k, L + 1)]) := by
  rw [runChecks_state]
  have hden : ¬ L + 1 ≤ L := by omega
  cases L with
  | zero =>
    exact check_eq_of_denied _ _ _ _ _ _ ⟨nm, 0, T⟩ k 1 rfl rfl rfl rfl hden
  | succ q =>
    have hinc : (seqUseCase k).rate_limit_repository.increment_counter k T
        (if q + 1 = 0 then [] else [(k, q + 1)]) =
        (.ok (q + 2), [(k, q + 2)]) := by
      simp [seqUseCase, mkRateLimitUseCase, modelRepo, counterLookup,
            counterSet]
    exact check_eq_of_denied _ _ _ _ _ _ ⟨nm, q + 1, T⟩ k (q + 2) rfl rfl
      rfl hinc (show ¬ q + 2 ≤ q + 1 by omega)

/-- C1: whenever a call to `check_rate_limit` reaches the store (resolution
and extraction succeed, no bypass) and the store returns post-increment
count `c`, the call is allowed exactly when `c ≤ limit` (inclusive), and a
denied call raises the 429 signal whose `retry_after` is the strategy's
ttl; consequently, against a fresh key on a store satisfying the increment
contract, the first `L` calls are allowed and call `L + 1` is denied with
`retry_after = T`. -/
theorem check_inclusive_limit_and_window {σ : Type} (uc : RateLimitUseCase σ)
    (request : Request) (cfg : Option RateLimitConfig)
    (dn : RateLimitStrategyName) (s s' : σ) (strat : RateLimitStrategy)
    (key : String) (c : Nat)
    (hstrat : _determine_strategy uc cfg dn = .ok strat)
    (hkey : uc.extract_key request (_determine_key_strategy cfg) = .ok key)
    (hbyp : _bypass_result cfg request = false)
    (hinc : uc.rate_limit_repository.increment_counter key strat.ttl s =
      (.ok c, s')) :
    (c ≤ strat.limit →
      check_rate_limit uc request cfg dn s =
        (.ok ⟨true, key, c, strat.limit, strat.ttl, none, strat.name⟩, s'))
    ∧ (strat.limit < c →
      check_rate_limit uc request cfg dn s =
        (.error (.rateLimitHTTP 429
          ⟨_get_error_message cfg
            ⟨false, key, c, strat.limit, strat.ttl, some strat.ttl,
             strat.name⟩,
           some strat.ttl, strat.limit, strat.ttl⟩), s'))
    ∧ (∀ (L T n : Nat) (k nm : String) (rq : Request),
        (n < L →
          (check_rate_limit (seqUseCase k) rq
            (some (strategyOnlyConfig ⟨nm, L, T⟩)) dn
            (runChecks (seqUseCase k) rq
              (some (strategyOnlyConfig ⟨nm, L, T⟩)) dn n [])).1 =
          .ok ⟨true, k, n + 1, L, T, none, nm⟩)
        ∧ ((check_rate_limit (seqUseCase k) rq
            (some (strategyOnlyConfig ⟨nm, L, T⟩)) dn
            (runChecks (seqUseCase k) rq
              (some (strategyOnlyConfig ⟨nm, L, T⟩)) dn L [])).1 =
          .error (.rateLimitHTTP 429
            ⟨_get_error_message (some (strategyOnlyConfig ⟨nm, L, T⟩))
              ⟨false, k, L + 1, L, T, some T, nm⟩,
             some T, L, T⟩))) := by
  refine ⟨?_, ?_, ?_⟩
  · intro h
    exact check_eq_of_allowed uc request cfg dn s s' strat key c hstrat hkey
      hbyp hinc h
  · intro h
    exact check_eq_of_denied uc request cfg dn s s' strat key c hstrat hkey
      hbyp hinc (not_le.mpr h)
  · intro L T n k nm rq
    exact ⟨fun hn => by rw [seq_check_succeeds L T k nm rq dn n hn],
           by rw [seq_check_denied L T k nm rq dn]⟩

/-- Witness for C1: the first call of a fresh caller against a limit of 2
is allowed with count 1, and against limit 2 the third call is denied with
retry-after 60. -/
theorem check_inclusive_limit_and_window_witness :
    check_rate_limit (seqUseCase "k") ⟨"/api"⟩
        (some (strategyOnlyConfig ⟨"s", 2, 60⟩))
        RateLimitStrategyName.MEDIUM [] =
      (.ok ⟨true, "k", 1, 2, 60, none, "s"⟩, [("k", 1)])
    ∧ (check_rate_limit (seqUseCase "k") ⟨"/api"⟩
        (some (strategyOnlyConfig ⟨"s", 2, 60⟩))
        RateLimitStrategyName.MEDIUM
        (runChecks (seqUseCase "k") ⟨"/api"⟩
          (some (strategyOnlyConfig ⟨"s", 2, 60⟩))
          RateLimitStrategyName.MEDIUM 2 [])).1 =
      .error (.rateLimitHTTP 429
        ⟨_get_error_message (some (strategyOnlyConfig ⟨"s", 2, 60⟩))
          ⟨false, "k", 3, 2, 60, some 60, "s"⟩, some 60, 2, 60⟩) := by
  have h := check_inclusive_limit_and_window (seqUseCase "k") ⟨"/api"⟩
    (some (strategyOnlyConfig ⟨"s", 2, 60⟩)) RateLimitStrategyName.MEDIUM
    [] [("k", 1)] ⟨"s", 2, 60⟩ "k" 1 rfl rfl rfl rfl
  exact ⟨h.1 (by decide), (h.2.2 2 60 0 "k" "s" ⟨"/api"⟩).2⟩

/-- C2: `get_current_usage` computes its allowed flag with the strictly
exclusive comparison `count < limit` (false already at `count = limit`),
while `check_rate_limit` allows exactly when the post-increment count
satisfies the inclusive `count ≤ limit`. -/
theorem usage_exclusive_vs_check_inclusive {σ : Type}
    (uc : RateLimitUseCase σ) (request : Request)
    (cfg : Option RateLimitConfig) (dn : RateLimitStrategyName) (s : σ)
    (strat : RateLimitStrategy) (key : String) (c : Nat)
    (hstrat : _determine_strategy uc cfg dn = .ok strat)
    (hkey : uc.extract_key request (_determine_key_strategy cfg) = .ok key)
    (hcnt : uc.rate_limit_repository.get_current_count key s = .ok c) :
    (get_current_usage uc request cfg dn s =
      .ok ⟨decide (c < strat.limit), key, c, strat.limit, strat.ttl,
           if c < strat.limit then none else some strat.ttl, strat.name⟩)
    ∧ ((∃ r : RateLimitResult,
        get_current_usage uc request cfg dn s = .ok r ∧ r.allowed = true) ↔
       c < strat.limit)
    ∧ (∀ (s₀ s' : σ), _bypass_result cfg request = false →
        uc.rate_limit_repository.increment_counter key strat.ttl s₀ =
          (.ok c, s') →
        ((∃ (r : RateLimitResult) (s'' : σ),
          check_rate_limit uc request cfg dn s₀ = (.ok r, s'') ∧
          r.allowed = true) ↔ c ≤ strat.limit)) := by
  have hu := usage_eq uc request cfg dn s strat key c hstrat hkey hcnt
  refine ⟨hu, ?_, ?_⟩
  · constructor
    · rintro ⟨r, hr, ha⟩
      rw [hu] at hr
      injection hr with h
      subst h
      exact of_decide_eq_true ha
    · intro h
      exact ⟨_, hu, decide_eq_true h⟩
  · intro s₀ s' hb hi
    constructor
    · rintro ⟨r, s'', hr, ha⟩
      by_contra hle
      rw [check_eq_of_denied uc request cfg dn s₀ s' strat key c hstrat hkey
        hb hi hle] at hr
      simp at hr
    · intro h
      exact ⟨_, s', check_eq_of_allowed uc request cfg dn s₀ s' strat key c
        hstrat hkey hb hi h, rfl⟩

/-- Witness for C2: at count exactly equal to the limit (2 of 2), a usage
peek reports not allowed, while a check whose increment lands exactly on
the limit is still allowed. -/
theorem usage_exclusive_vs_check_inclusive_witness :
    get_current_usage (seqUseCase "k") ⟨"/api"⟩
        (some (strategyOnlyConfig ⟨"s", 2, 60⟩))
        RateLimitStrategyName.MEDIUM [("k", 2)] =
      .ok ⟨false, "k", 2, 2, 60, some 60, "s"⟩
    ∧ (∃ (r : RateLimitResult) (s'' : List (String × Nat)),
        check_rate_limit (seqUseCase "k") ⟨"/api"⟩
          (some (strategyOnlyConfig ⟨"s", 2, 60⟩))
          RateLimitStrategyName.MEDIUM [("k", 1)] = (.ok r, s'') ∧
        r.allowed = true) := by
  have h := usage_exclusive_vs_check_inclusive (seqUseCase "k") ⟨"/api"⟩
    (some (strategyOnlyConfig ⟨"s", 2, 60⟩)) RateLimitStrategyName.MEDIUM
    [("k", 2)] ⟨"s", 2, 60⟩ "k" 2 rfl rfl rfl
  exact ⟨h.1, (h.2.2 [("k", 1)] [("k", 2)] rfl rfl).mpr (by decide)⟩

/-- C5: a bypass predicate that raises is caught and logged, never
propagates, and the check proceeds exactly as if no bypass were configured
-- in particular the store increment is still issued. -/
theorem bypass_raise_ignored {σ : Type} (uc : RateLimitUseCase σ)
    (request : Request) (cfg : RateLimitConfig)
    (dn : RateLimitStrategyName) (s : σ)
    (f : Request → Except PyExc Bool) (e : PyExc)
    (hf : cfg.bypass_function = some f) (he : f request = .error e) :
    check_rate_limit uc request (some cfg) dn s =
      check_rate_limit uc request
        (some { cfg with bypass_function := none }) dn s := by
  obtain ⟨st, sn, ke, bf, cem, en⟩ := cfg
  have hbf : bf = some f := hf
  subst hbf
  simp [check_rate_limit, check_rate_limit_inner, _determine_strategy,
        _determine_key_strategy, _get_error_message, _bypass_result, he]

/-- Witness for C5: with a raising bypass predicate, the call returns the
same as with no bypass at all, and the store increment was issued (the
fresh key now carries 1). -/
theorem bypass_raise_ignored_witness :
    check_rate_limit (seqUseCase "k") ⟨"/api"⟩ (some raisingBypassConfig)
        RateLimitStrategyName.MEDIUM [] =
      check_rate_limit (seqUseCase "k") ⟨"/api"⟩
        (some { raisingBypassConfig with bypass_function := none })
        RateLimitStrategyName.MEDIUM []
    ∧ check_rate_limit (seqUseCase "k") ⟨"/api"⟩ (some raisingBypassConfig)
        RateLimitStrategyName.MEDIUM [] =
      (.ok ⟨true, "k", 1, 2, 60, none, "s"⟩, [("k", 1)]) :=
  ⟨bypass_raise_ignored (seqUseCase "k") ⟨"/api"⟩ raisingBypassConfig
    RateLimitStrategyName.MEDIUM [] (fun _ => .error (.other "bypass blew up"))
    (.other "bypass blew up") rfl rfl, rfl⟩

/-- C6: a bypass predicate returning true short-circuits the check: the
result is allowed with `current_count = 0` and the strategy's limit, ttl
and name, and the store state is returned untouched for every store. -/
theorem bypass_true_short_circuits {σ : Type} (uc : RateLimitUseCase σ)
    (request : Request) (cfg : RateLimitConfig)
    (dn : RateLimitStrategyName) (s : σ) (strat : RateLimitStrategy)
    (key : String) (f : Request → Except PyExc Bool)
    (hstrat : _determine_strategy uc (some cfg) dn = .ok strat)
    (hkey : uc.extract_key request (_determine_key_strategy (some cfg)) =
      .ok key)
    (hf : cfg.bypass_function = some f) (ht : f request = .ok true) :
    check_rate_limit uc request (some cfg) dn s =
      (.ok ⟨true, key, 0, strat.limit, strat.ttl, none, strat.name⟩, s) := by
  have hb : _bypass_result (some cfg) request = true := by
    simp [_bypass_result, hf, ht]
  simp [check_rate_limit, check_rate_limit_inner, hstrat, hkey, hb]

/-- Witness for C6: a true bypass returns allowed with count 0 and leaves a
store holding an unrelated key untouched. -/
theorem bypass_true_short_circuits_witness :
    check_rate_limit (seqUseCase "k") ⟨"/api"⟩ (some bypassTrueConfig)
        RateLimitStrategyName.MEDIUM [("other", 7)] =
      (.ok ⟨true, "k", 0, 2, 60, none, "s"⟩, [("other", 7)]) :=
  bypass_true_short_circuits (seqUseCase "k") ⟨"/api"⟩ bypassTrueConfig
    RateLimitStrategyName.MEDIUM [("other", 7)] ⟨"s", 2, 60⟩ "k"
    (fun _ => .ok true) rfl rfl rfl rfl

/-- Counterexample to C3: against an unreachable store raising
`other "redis unreachable"`, `check_rate_limit` does NOT propagate that
exception unmodified — it returns a different error with a different
message (`RateLimitException("Rate limit check failed", 500)`), and
`get_current_usage` likewise returns
`RateLimitException("Usage check failed", 500)`. -/
theorem errors_propagate_unmodified_counterexample :
    check_rate_limit storeDownUseCase ⟨"/api"⟩ none
        RateLimitStrategyName.MEDIUM [] =
      (.error (.rateLimitExc "Rate limit check failed" 500), [])
    ∧ get_current_usage storeDownUseCase ⟨"/api"⟩ none
        RateLimitStrategyName.MEDIUM [] =
      .error (.rateLimitExc "Usage check failed" 500)
    ∧ PyExc.rateLimitExc "Rate limit check failed" 500 ≠
        PyExc.other "redis unreachable" :=
  ⟨rfl, rfl, by decide⟩

/-- C3 amended: store and key-extraction failures do NOT propagate
unmodified; both methods catch every exception (re-raising only the 429
`RateLimitHTTPException` in `check_rate_limit`) and convert it into a
`RateLimitException` with a generic message — "Rate limit check failed"
(status 500) from `check_rate_limit` and "Usage check failed" (status 500)
from `get_current_usage`. -/
theorem engine_wraps_collaborator_failures {σ : Type}
    (uc : RateLimitUseCase σ) (request : Request)
    (cfg : Option RateLimitConfig) (dn : RateLimitStrategyName) (s : σ)
    (e : PyExc) (he : ∀ sc d, e ≠ .rateLimitHTTP sc d) :
    (∀ strat, _determine_strategy uc cfg dn = .ok strat →
      uc.extract_key request (_determine_key_strategy cfg) = .error e →
      check_rate_limit uc request cfg dn s =
        (.error (.rateLimitExc "Rate limit check failed" 500), s)
      ∧ get_current_usage uc request cfg dn s =
        .error (.rateLimitExc "Usage check failed" 500))
    ∧ (∀ strat key s', _determine_strategy uc cfg dn = .ok strat →
        uc.extract_key request (_determine_key_strategy cfg) = .ok key →
        _bypass_result cfg request = false →
        uc.rate_limit_repository.increment_counter key strat.ttl s =
          (.error e, s') →
        check_rate_limit uc request cfg dn s =
          (.error (.rateLimitExc "Rate limit check failed" 500), s'))
    ∧ (∀ strat key, _determine_strategy uc cfg dn = .ok strat →
        uc.extract_key request (_determine_key_strategy cfg) = .ok key →
        uc.rate_limit_repository.get_current_count key s = .error e →
        get_current_usage uc request cfg dn s =
          .error (.rateLimitExc "Usage check failed" 500)) := by
  refine ⟨?_, ?_, ?_⟩
  · intro strat hstrat hkeyE
    cases e with
    | rateLimitHTTP sc d => exact absurd rfl (he sc d)
    | rateLimitExc m code =>
      exact ⟨by simp [check_rate_limit, check_rate_limit_inner, hstrat,
                      hkeyE],
             by simp [get_current_usage, get_current_usage_inner, hstrat,
                      hkeyE]⟩
    | other m =>
      exact ⟨by simp [check_rate_limit, check_rate_limit_inner, hstrat,
                      hkeyE],
             by simp [get_current_usage, get_current_usage_inner, hstrat,
                      hkeyE]⟩
  · intro strat key s' hstrat hkey hbyp hinc
    cases e with
    | rateLimitHTTP sc d => exact absurd rfl (he sc d)
    | rateLimitExc m code =>
      simp [check_rate_limit, check_rate_limit_inner, hstrat, hkey, hbyp,
            hinc]
    | other m =>
      simp [check_rate_limit, check_rate_limit_inner, hstrat, hkey, hbyp,
            hinc]
  · intro strat key hstrat hkey hcnt
    simp [get_current_usage, get_current_usage_inner, hstrat, hkey, hcnt]

/-- Witness for C3 (amended): the unreachable store's failure during the
increment comes back wrapped as the generic check-failed error. -/
theorem engine_wraps_collaborator_failures_witness :
    check_rate_limit storeDownUseCase ⟨"/api"⟩ none
        RateLimitStrategyName.MEDIUM [("k", 3)] =
      (.error (.rateLimitExc "Rate limit check failed" 500), [("k", 3)]) :=
  (engine_wraps_collaborator_failures storeDownUseCase ⟨"/api"⟩ none
    RateLimitStrategyName.MEDIUM [("k", 3)] (.other "redis unreachable")
    (fun _ _ h => PyExc.noConfusion h)).2.1
    ⟨RateLimitStrategyName.MEDIUM, 20, 600⟩ "k" [("k", 3)] rfl rfl rfl rfl

/-- Counterexample to C4: when the rate-limit check raises a true error
(unreachable store), `dispatch` does not surface a server-side failure —
it catches the exception and forwards the request to the next handler
(fail-open), i.e. the error IS silently converted into allowing the
request through. -/
theorem boundary_error_surfacing_counterexample :
    check_rate_limit storeDownUseCase ⟨"/api"⟩ none
        RateLimitStrategyName.MEDIUM [] =
      (.error (.rateLimitExc "Rate limit check failed" 500), [])
    ∧ dispatch mwStoreDown ⟨"/api"⟩ [] = (.forwarded none, [])
    ∧ ∀ sc d, (DispatchResult.forwarded none : DispatchResult) ≠
        .rejected sc d :=
  ⟨rfl, rfl, fun _ _ h => DispatchResult.noConfusion h⟩

/-- C4 amended: at the boundary, the 429 exceeded signal is mapped to a
structured rejection carrying its retry-after/limit metadata, a successful
check forwards the request with rate-limit headers, but any other error
raised during the check is caught by the middleware and the request is
forwarded to the next handler (fail-open), not surfaced as a server-side
failure. -/
theorem dispatch_outcome_mapping {σ : Type} (mw : RateLimitMiddleware σ)
    (request : Request) (s s' : σ) (hen : mw.enabled = true)
    (hex : _is_path_excluded mw.excluded_paths request.path = false)
    (hcfg : ∀ c, mw.get_route_config request = some c → c.enabled = true) :
    (∀ sc d, check_rate_limit mw.rate_limit_use_case request
        (mw.get_route_config request) mw.default_strategy_name s =
        (.error (.rateLimitHTTP sc d), s') →
      dispatch mw request s = (.rejected sc d, s'))
    ∧ (∀ e, check_rate_limit mw.rate_limit_use_case request
        (mw.get_route_config request) mw.default_strategy_name s =
        (.error e, s') → (∀ sc d, e ≠ .rateLimitHTTP sc d) →
      dispatch mw request s = (.forwarded none, s'))
    ∧ (∀ r, check_rate_limit mw.rate_limit_use_case request
        (mw.get_route_config request) mw.default_strategy_name s =
        (.ok r, s') →
      dispatch mw request s = (.forwarded (some r), s')) := by
  have hrc : (match mw.get_route_config request with
      | some c => !c.enabled
      | none => false) = false := by
    cases hr : mw.get_route_config request with
    | none => rfl
    | some c => simp [hcfg c hr]
  refine ⟨?_, ?_, ?_⟩
  · intro sc d hchk
    simp [dispatch, hen, hex, hrc, hchk]
  · intro e hchk hne
    cases e with
    | rateLimitHTTP sc d => exact absurd rfl (hne sc d)
    | rateLimitExc m code => simp [dispatch, hen, hex, hrc, hchk]
    | other m => simp [dispatch, hen, hex, hrc, hchk]
  · intro r hchk
    simp [dispatch, hen, hex, hrc, hchk]

/-- Witness for C4 (amended): with a one-per-minute route config and the
caller already at the limit, the middleware returns the structured 429
rejection carrying retry-after 60 and limit 1. -/
theorem dispatch_outcome_mapping_witness :
    dispatch mwStrict ⟨"/api"⟩ [("k", 1)] =
      (.rejected 429
        ⟨"Rate limit exceeded. Maximum 1 requests per 60 seconds. Please try again in 60 seconds.",
         some 60, 1, 60⟩, [("k", 2)]) :=
  (dispatch_outcome_mapping mwStrict ⟨"/api"⟩ [("k", 1)] [("k", 2)] rfl rfl
    (fun _ h => by cases h; rfl)).1 429
    ⟨"Rate limit exceeded. Maximum 1 requests per 60 seconds. Please try again in 60 seconds.",
     some 60, 1, 60⟩ rfl

end Fastrict
